import Mathlib

/-!
Shallow embedding of the keriox verification core (src/src/event/mod.rs,
src/src/bin.rs, src/src/database/lmdb.rs).

Byte strings are `List Nat`; machine `u64` values are `Nat` with an explicit
`% U64` at the one site where the source performs 64-bit addition.
Cryptographic hash primitives are out of the repository's scope (spec §1), so
every operation that hashes is parameterized by an abstract hash function
`h : Nat → Bytes → Bytes` (derivation code, input ↦ digest bytes).
-/

deriving instance DecidableEq for Except

namespace Keriox

/-- Byte strings (`Vec<u8>` / `&[u8]` in the source). -/
abbrev Bytes := List Nat

/-- The modulus of `u64` arithmetic. -/
def U64 : Nat := 2 ^ 64

/-- A self-addressing digest value (`SelfAddressingPrefix`): a derivation code
identifying the hash algorithm plus the digest bytes.  Modelled from the spec
(§2 item 2, §3): the prefix module is not under src/. -/
structure SelfAddressingPrefix where
  derivation : Nat
  digest : Bytes
  deriving DecidableEq

/-- Derivation code of `SelfAddressing::Blake3_256` (an arbitrary but fixed
code in the model). -/
def blake3_256 : Nat := 0

/-- Derivation code of `Basic::Ed25519`. -/
def ed25519code : Nat := 1

/-- Derivation code of `SelfSigning::Ed25519Sha512`. -/
def ed25519Sha512 : Nat := 2

/-- `code.derive(bytes)` producing a `SelfAddressingPrefix`: tags the digest
`h code bytes` with the derivation code, for an abstract hash `h`.  Modelled
from the spec (§2 item 1): the derivation module is not under src/. -/
def deriveSA (h : Nat → Bytes → Bytes) (code : Nat) (bs : Bytes) : SelfAddressingPrefix :=
  ⟨code, h code bs⟩

/-- A basic (public-key) prefix (`BasicPrefix`): derivation code plus the raw
public key.  Modelled from the spec (§2 item 2): the prefix module is not
under src/. -/
structure BasicPrefix where
  derivation : Nat
  key : Bytes
  deriving DecidableEq

/-- `Basic::Ed25519.derive(public_key)`: wraps the key with its derivation
code.  Modelled from the spec (§2 item 1). -/
def deriveBasic (pk : Bytes) : BasicPrefix :=
  ⟨ed25519code, pk⟩

/-- `Prefix::to_str(...).as_bytes()`: the canonical text encoding of a basic
prefix, as bytes.  Modelled from the spec (§2 item 2: "supports canonical
text/byte encoding"); a concrete injective encoding. -/
def BasicPrefix.to_str_bytes (b : BasicPrefix) : Bytes :=
  b.derivation :: b.key.length :: b.key

/-- `IdentifierPrefix`: per spec §3, either "unset" (the `Default::default()`
value, pre-inception) or a self-addressing / basic / self-signing encoding.
Modelled from the spec: the prefix module is not under src/. -/
inductive IdentifierPrefix where
  | unset : IdentifierPrefix
  | selfAddressing : SelfAddressingPrefix → IdentifierPrefix
  | basic : BasicPrefix → IdentifierPrefix
  | selfSigning : Bytes → IdentifierPrefix
  deriving DecidableEq

/-- `IdentifierPrefix::default()` is the "unset" variant (spec §3). -/
def IdentifierPrefix.defaultVal : IdentifierPrefix := IdentifierPrefix.unset

/-- `EventSeal` (src/src/bin.rs uses `seal::EventSeal`): the validator's
identifier and the digest of its last establishment event.  The source field
named after the wire tag is rendered `pre` here (its serde name).  Modelled
from the spec (§3 Receipt): the sections module is not under src/. -/
structure EventSeal where
  pre : IdentifierPrefix
  event_digest : SelfAddressingPrefix
  deriving DecidableEq

/-- `ReceiptTransferable` (spec §3 Receipt): digest of the receipted event
plus the validator location seal.  Modelled from the spec: the receipt module
is not under src/. -/
structure ReceiptTransferable where
  receipted_event_digest : SelfAddressingPrefix
  validator_location_seal : EventSeal
  deriving DecidableEq

/-- `KeyConfig` (spec §3): threshold, current public keys, and the
pre-rotation commitment digest.  Modelled from the spec: the sections module
is not under src/. -/
structure KeyConfig where
  threshold : Nat
  public_keys : List BasicPrefix
  threshold_key_digest : SelfAddressingPrefix
  deriving DecidableEq

/-- `WitnessConfig` (spec §3): witness threshold and witness list.  Modelled
from the spec: the sections module is not under src/. -/
structure WitnessConfig where
  tally : Nat
  witnesses : List IdentifierPrefix
  deriving DecidableEq

instance : Inhabited WitnessConfig := ⟨⟨0, []⟩⟩

/-- `InceptionWitnessConfig` (spec §3, §6 `toad`/`wits`).  Modelled from the
spec: the sections module is not under src/. -/
structure InceptionWitnessConfig where
  tally : Nat
  initial_witnesses : List IdentifierPrefix
  deriving DecidableEq

instance : Inhabited InceptionWitnessConfig := ⟨⟨0, []⟩⟩

/-- The witness configuration established by an inception event. -/
def InceptionWitnessConfig.toWitnessConfig (c : InceptionWitnessConfig) : WitnessConfig :=
  ⟨c.tally, c.initial_witnesses⟩

/-- `InceptionEvent` payload (spec §4.1, §6).  Modelled from the spec: the
inception module is not under src/. -/
structure InceptionEvent where
  key_config : KeyConfig
  witness_config : InceptionWitnessConfig
  inception_configuration : List Nat
  deriving DecidableEq

/-- `RotationEvent` payload (spec §4.1, §6).  Modelled from the spec: the
rotation module is not under src/. -/
structure RotationEvent where
  previous_event_hash : SelfAddressingPrefix
  key_config : KeyConfig
  witness_config : WitnessConfig
  data : List Nat
  deriving DecidableEq

/-- `InteractionEvent` payload (spec §4.1).  Modelled from the spec: the
interaction module is not under src/. -/
structure InteractionEvent where
  previous_event_hash : SelfAddressingPrefix
  data : List Nat
  deriving DecidableEq

/-- `EventData`: the closed variant payload (spec §3, §9 "variant dispatch").
Modelled from the spec: the event_data module is not under src/ (only
`Event`, which wraps it, is). -/
inductive EventData where
  | icp : InceptionEvent → EventData
  | rot : RotationEvent → EventData
  | ixn : InteractionEvent → EventData
  | vrc : ReceiptTransferable → EventData
  deriving DecidableEq

/-- `Event` (src/src/event/mod.rs lines 12-22): identifier prefix (serde name
`pre`, rendered `pre` here), `u64` sequence number, and the variant payload. -/
structure Event where
  pre : IdentifierPrefix
  sn : Nat
  event_data : EventData
  deriving DecidableEq

/-- The distinct semantic-error message strings the sources emit.  Each
constructor stands for exactly one string, so two source sites that emit the
same string map to the same constructor (`ErrMsg.text` gives the exact
strings). -/
inductive ErrMsg where
  | snIncorrect : ErrMsg
  | prefixMismatch : ErrMsg
  | incorrectReceiptSn : ErrMsg
  | incorrectReceiptBinding : ErrMsg
  | notAReceipt : ErrMsg
  | previousEventHashMismatch : ErrMsg
  deriving DecidableEq

/-- The exact message string each `ErrMsg` constructor stands for.
`snIncorrect` is emitted both by the inception arm (src/src/event/mod.rs
line 36) and by the non-inception sn check (line 44); the receipt messages
are from src/src/bin.rs lines 113, 146, 149.  `previousEventHashMismatch`
is the rotation chain check, modelled from the spec (§4.1). -/
def ErrMsg.text : ErrMsg → String
  | ErrMsg.snIncorrect => "SN is not correct"
  | ErrMsg.prefixMismatch => "Prefix does not match"
  | ErrMsg.incorrectReceiptSn => "incorrect receipt sn"
  | ErrMsg.incorrectReceiptBinding => "incorrect receipt binding"
  | ErrMsg.notAReceipt => "not a receipt"
  | ErrMsg.previousEventHashMismatch => "previous event hash mismatch"

/-- `keri::error::Error`, restricted to the variants the given sources
construct: `SemanticError(String)` and `CryptoError(..)`.  Modelled from the
spec (§7 error taxonomy): the error module is not under src/. -/
inductive Error where
  | semanticError : ErrMsg → Error
  | cryptoError : Error
  deriving DecidableEq

/-- The serialization format tag (`SerializationFormats`); the demo only uses
JSON.  Modelled from the spec (§3 EventMessage): the event_message module is
not under src/. -/
inductive SerializationFormats where
  | json : SerializationFormats
  deriving DecidableEq

/-- `EventMessage`: an `Event` plus its serialization-format tag (spec §3).
Modelled from the spec: the event_message module is not under src/. -/
structure EventMessage where
  serialization_info : SerializationFormats
  event : Event
  deriving DecidableEq

/-- `Event::to_message` (src/src/event/mod.rs lines 25-27): wraps the event
with its format via `EventMessage::new`; construction never fails in the
model (`EventMessage::new` itself is not under src/). -/
def Event.to_message (self : Event) (format : SerializationFormats) : Except Error EventMessage :=
  Except.ok ⟨format, self⟩

/-- Length-prefixed byte-string encoding, used by the canonical
serialization below. -/
def encBytes (bs : Bytes) : Bytes :=
  bs.length :: bs

/-- Length-prefixed list encoding. -/
def encList {α : Type} (f : α → Bytes) (l : List α) : Bytes :=
  l.length :: (l.map f).flatten

/-- Canonical encoding of a self-addressing prefix. -/
def SelfAddressingPrefix.enc (d : SelfAddressingPrefix) : Bytes :=
  d.derivation :: encBytes d.digest

/-- Canonical encoding of a basic prefix. -/
def BasicPrefix.enc (b : BasicPrefix) : Bytes :=
  b.derivation :: encBytes b.key

/-- Canonical encoding of an identifier prefix. -/
def IdentifierPrefix.enc : IdentifierPrefix → Bytes
  | IdentifierPrefix.unset => [0]
  | IdentifierPrefix.selfAddressing d => 1 :: d.enc
  | IdentifierPrefix.basic b => 2 :: b.enc
  | IdentifierPrefix.selfSigning s => 3 :: encBytes s

/-- Canonical encoding of a key configuration (`sith`, `keys`, `nxt`). -/
def KeyConfig.enc (k : KeyConfig) : Bytes :=
  k.threshold :: encList BasicPrefix.enc k.public_keys ++ k.threshold_key_digest.enc

/-- Canonical encoding of a witness configuration (`toad`, `wits`). -/
def WitnessConfig.enc (w : WitnessConfig) : Bytes :=
  w.tally :: encList IdentifierPrefix.enc w.witnesses

/-- Canonical encoding of an inception witness configuration. -/
def InceptionWitnessConfig.enc (w : InceptionWitnessConfig) : Bytes :=
  w.tally :: encList IdentifierPrefix.enc w.initial_witnesses

/-- Canonical encoding of an event seal. -/
def EventSeal.enc (s : EventSeal) : Bytes :=
  s.pre.enc ++ s.event_digest.enc

/-- Canonical encoding of the variant payload, tagged by the event kind
(`ilk`). -/
def EventData.enc : EventData → Bytes
  | EventData.icp e =>
      0 :: e.key_config.enc ++ e.witness_config.enc ++ e.inception_configuration
  | EventData.rot e =>
      1 :: e.previous_event_hash.enc ++ e.key_config.enc ++ e.witness_config.enc ++ e.data
  | EventData.ixn e =>
      2 :: e.previous_event_hash.enc ++ e.data
  | EventData.vrc r =>
      3 :: r.receipted_event_digest.enc ++ r.validator_location_seal.enc

/-- `EventMessage::serialize` — the canonical, deterministic byte
serialization of the semantic content (spec §3 EventMessage, §6 wire
encoding).  Modelled from the spec: the event_message module is not under
src/; rendered as a concrete deterministic encoding of every field. -/
def EventMessage.serialize (m : EventMessage) : Bytes :=
  (match m.serialization_info with | SerializationFormats.json => 0) ::
    m.event.pre.enc ++ [m.event.sn] ++ m.event.event_data.enc

/-- `AttachedSignaturePrefix` (spec §3 SignedEventMessage): a derivation
code, the raw signature bytes, and the index of the signing key.  Modelled
from the spec: the prefix module is not under src/. -/
structure AttachedSignaturePrefix where
  derivation : Nat
  sig : Bytes
  index : Nat
  deriving DecidableEq

/-- `SignedEventMessage`: an event message plus its attached signatures
(spec §3).  Modelled from the spec: the event_message module is not under
src/. -/
structure SignedEventMessage where
  event_message : EventMessage
  signatures : List AttachedSignaturePrefix
  deriving DecidableEq

/-- `EventMessage::sign` (spec §3): attaches the given signatures to the
message.  Modelled from the spec: the event_message module is not under
src/. -/
def EventMessage.sign (self : EventMessage) (sigs : List AttachedSignaturePrefix) : SignedEventMessage :=
  ⟨self, sigs⟩

/-- `IdentifierState` (spec §3): the folded snapshot — identifier prefix,
sequence number, current key configuration, witness configuration, and the
bytes of the last event (`last`, which the sources hash with
`SelfAddressing::Blake3_256.derive(&state.last)`).  Modelled from the spec:
the state module is not under src/. -/
structure IdentifierState where
  pre : IdentifierPrefix
  sn : Nat
  current : KeyConfig
  witnesses : WitnessConfig
  last : Bytes
  deriving DecidableEq

/-- `IdentifierState::default()`: the empty pre-inception state (spec §3:
created from the empty/default state by applying an inception event). -/
def IdentifierState.defaultVal : IdentifierState :=
  ⟨IdentifierPrefix.unset, 0, ⟨0, [], ⟨0, []⟩⟩, ⟨0, []⟩, []⟩

/-- Modelled from the spec: `EventData::apply_to` (§4.1) — the per-variant
semantics the `..self.event_data.apply_to(state)?` update in
src/src/event/mod.rs line 51 delegates to; the event_data module is not
under src/.  Inception installs the declared key and witness configurations;
rotation checks the declared `previous_event_hash` against a fresh digest of
the prior `last` and installs the new key configuration; interaction leaves
key state untouched.  (`last` itself is maintained by `EventMessage`-level
application, outside both src/ and every claim, so it is carried over
unchanged here.) -/
def EventData.apply_to (h : Nat → Bytes → Bytes) : EventData → IdentifierState → Except Error IdentifierState
  | EventData.icp ev, st =>
      Except.ok { st with current := ev.key_config,
                          witnesses := ev.witness_config.toWitnessConfig }
  | EventData.rot ev, st =>
      if ev.previous_event_hash = deriveSA h ev.previous_event_hash.derivation st.last then
        Except.ok { st with current := ev.key_config, witnesses := ev.witness_config }
      else
        Except.error (Error.semanticError ErrMsg.previousEventHashMismatch)
  | EventData.ixn _, st => Except.ok st
  | EventData.vrc _, st => Except.ok st

/-- The sequencing guard of `Event::apply_to` (src/src/event/mod.rs lines
32-47): `none` when the checks pass, otherwise the error the source
returns.  Inception requires the state's prefix to be the default (unset)
value and `sn == 0`, answering "SN is not correct" to any violation; every
other kind requires the event's prefix to equal the state's ("Prefix does
not match") and the event's `sn` to equal the state's `sn + 1` in `u64`
arithmetic ("SN is not correct"). -/
def Event.seqCheck (self : Event) (state : IdentifierState) : Option Error :=
  match self.event_data with
  | EventData.icp _ =>
      if state.pre ≠ IdentifierPrefix.defaultVal ∨ self.sn ≠ 0 then
        some (Error.semanticError ErrMsg.snIncorrect)
      else
        none
  | _ =>
      if self.pre ≠ state.pre then
        some (Error.semanticError ErrMsg.prefixMismatch)
      else if self.sn ≠ (state.sn + 1) % U64 then
        some (Error.semanticError ErrMsg.snIncorrect)
      else
        none

/-- `Event::apply_to` (src/src/event/mod.rs lines 30-54): runs the
sequencing guard, then delegates to the variant payload and overwrites `sn`
and the prefix with the event's own. -/
def Event.apply_to (h : Nat → Bytes → Bytes) (self : Event) (state : IdentifierState) : Except Error IdentifierState :=
  match Event.seqCheck self state with
  | some e => Except.error e
  | none =>
      (EventData.apply_to h self.event_data state).map
        (fun st => { st with sn := self.sn, pre := self.pre })

/-- An ed25519 key pair (ursa `(PublicKey, PrivateKey)`), raw bytes. -/
structure KeyPair where
  pubKey : Bytes
  privKey : Bytes
  deriving DecidableEq

/-- The association-list rendering of `HashMap<u64, Vec<SignedEventMessage>>`. -/
abbrev SigsMap := List (Nat × List SignedEventMessage)

/-- `sigs_map.entry(sn).or_insert_with(Vec::new).push(sigs)`
(src/src/bin.rs lines 136-139): appends `v` to the vector stored at key
`k`, creating the entry if absent. -/
def SigsMap.push (m : SigsMap) (k : Nat) (v : SignedEventMessage) : SigsMap :=
  match m with
  | [] => [(k, [v])]
  | (k', vs) :: rest =>
      if k' = k then (k', vs ++ [v]) :: rest else (k', vs) :: SigsMap.push rest k v

/-- Lookup in the receipt collection. -/
def SigsMap.find (m : SigsMap) (k : Nat) : List SignedEventMessage :=
  match m with
  | [] => []
  | (k', vs) :: rest => if k' = k then vs else SigsMap.find rest k

/-- `LogState` (src/src/bin.rs lines 32-39): the demo's per-identifier
mutable state — the event log, the per-sn receipt collection, the folded
identifier state, current and committed-next key pairs, and the escrow
list. -/
structure LogState where
  log : List SignedEventMessage
  sigs_map : SigsMap
  state : IdentifierState
  keypair : KeyPair
  next_keypair : KeyPair
  escrow_sigs : List SignedEventMessage
  deriving DecidableEq

/-- `LogState::add_sig` (src/src/bin.rs lines 103-151).  The Rust receiver
is `&mut self` returning `Result<(), Error>`; rendered here as a pure
function producing the updated `LogState` together with the `Result`.
Parameters: `h` the hash oracle (invoked by the source through
`<digest>.derivation.derive(..)`), and `vf` the signature-verification
collaborator `IdentifierState::verify` (the state module is not under
src/).  A non-receipt payload and a missing log entry are rejected; the
three bindings (receipt prefix, receipted-event digest, seal prefix) are
required together; when they hold, a matching seal digest leads to
verification and insertion into `sigs_map`, a non-matching one to
escrow. -/
def LogState.add_sig (h : Nat → Bytes → Bytes)
    (vf : IdentifierState → SignedEventMessage → Except Error Unit)
    (self : LogState) (validator : IdentifierState) (sigs : SignedEventMessage) :
    LogState × Except Error Unit :=
  match sigs.event_message.event.event_data with
  | EventData.vrc rct =>
      match self.log.get? sigs.event_message.event.sn with
      | none => (self, Except.error (Error.semanticError ErrMsg.incorrectReceiptSn))
      | some event =>
          if sigs.event_message.event.pre = self.state.pre
              ∧ rct.receipted_event_digest
                  = deriveSA h rct.receipted_event_digest.derivation
                      (EventMessage.serialize event.event_message)
              ∧ rct.validator_location_seal.pre = validator.pre then
            if rct.validator_location_seal.event_digest
                = deriveSA h rct.validator_location_seal.event_digest.derivation
                    validator.last then
              match vf validator (EventMessage.sign event.event_message sigs.signatures) with
              | Except.ok _ =>
                  ({ self with
                      sigs_map := SigsMap.push self.sigs_map sigs.event_message.event.sn sigs },
                    Except.ok ())
              | Except.error e => (self, Except.error e)
            else
              ({ self with escrow_sigs := self.escrow_sigs ++ [sigs] }, Except.ok ())
          else
            (self, Except.error (Error.semanticError ErrMsg.incorrectReceiptBinding))
  | _ => (self, Except.error (Error.semanticError ErrMsg.notAReceipt))

/-- `LogState::make_rct` (src/src/bin.rs lines 153-174).  `signFn` is the
ed25519 signing primitive `ed.sign(message, private_key)` (out of the
repository's scope, spec §1).  Serializes the target event, builds a `Vrc`
event whose prefix and `sn` are the target's, whose seal carries the
issuer's own prefix and a digest of the issuer's `last`, and attaches a
signature computed over the target's serialization `ser`. -/
def LogState.make_rct (h : Nat → Bytes → Bytes) (signFn : Bytes → Bytes → Bytes)
    (self : LogState) (event : EventMessage) : Except Error SignedEventMessage := do
  let ser := EventMessage.serialize event
  let em ← Event.to_message
    { pre := event.event.pre
      sn := event.event.sn
      event_data := EventData.vrc
        { receipted_event_digest := deriveSA h blake3_256 ser
          validator_location_seal :=
            { pre := self.state.pre
              event_digest := deriveSA h blake3_256 self.state.last } } }
    SerializationFormats.json
  return EventMessage.sign em
    [⟨ed25519Sha512, signFn ser self.keypair.privKey, 0⟩]

/-- `LogState::rotate` (src/src/bin.rs lines 176-220).  `signFn` is the
ed25519 signing primitive; `va` is the `IdentifierState::verify_and_apply`
collaborator (the state module is not under src/); `fresh` is the key pair
the source draws from the RNG (`ed.keypair(None)`).  Promotes
`next_keypair` to the signing pair, builds a rotation event at
`state.sn + 1` (u64 arithmetic) whose `previous_event_hash` is a fresh
Blake3 digest of `state.last` and whose key configuration holds the
promoted public key and a fresh commitment digest over the canonical text
encoding of the new next public key, signs it with the promoted private
key, folds it through `va`, appends it to the log, and installs the new
key pairs. -/
def LogState.rotate (h : Nat → Bytes → Bytes) (signFn : Bytes → Bytes → Bytes)
    (va : IdentifierState → SignedEventMessage → Except Error IdentifierState)
    (fresh : KeyPair) (self : LogState) : Except Error (LogState × SignedEventMessage) := do
  let keypair := self.next_keypair
  let next_keypair := fresh
  let ev ← Event.to_message
    { pre := self.state.pre
      sn := (self.state.sn + 1) % U64
      event_data := EventData.rot
        { previous_event_hash := deriveSA h blake3_256 self.state.last
          key_config :=
            { threshold := 1
              public_keys := [deriveBasic keypair.pubKey]
              threshold_key_digest :=
                deriveSA h blake3_256 (deriveBasic next_keypair.pubKey).to_str_bytes }
          witness_config := default
          data := [] } }
    SerializationFormats.json
  let rot := EventMessage.sign ev
    [⟨ed25519Sha512, signFn (EventMessage.serialize ev) keypair.privKey, 0⟩]
  let st' ← va self.state rot
  return ({ self with
              state := st'
              log := self.log ++ [rot]
              keypair := keypair
              next_keypair := next_keypair },
           rot)

/-- The single-value keyed store as an association list (newest binding
first), standing for the LMDB store at the spec §6 interface (the storage
engine is an external collaborator). -/
abbrev Store := List (Bytes × Bytes)

/-- `store.delete(&mut writer, key)` at the §6 interface: removes the
binding for `key` inside the open write transaction. -/
def storeDelete (st : Store) (k : Bytes) : Store :=
  st.filter (fun p => decide (p.1 ≠ k))

/-- `store.put(&mut writer, key, Value::Blob(value))` at the §6 interface:
inserts a binding inside the open write transaction. -/
def storePut (st : Store) (k v : Bytes) : Store :=
  (k, v) :: st

/-- `get` at the §6 interface: the most recent binding for `key`. -/
def storeGet (st : Store) (k : Bytes) : Option Bytes :=
  (st.find? (fun p => p.1 == k)).map (fun p => p.2)

/-- `LMDBTable::set` (src/src/database/lmdb.rs lines 37-43): one write
transaction performing delete-then-insert, then committing.  The
transaction is the sequential composition of the two operations on the
store snapshot; commit makes the result the new store. -/
def LMDBTable.set (st : Store) (k v : Bytes) : Store :=
  storePut (storeDelete st k) k v

/-- Whether the payload is the inception variant (the discriminator of the
two arms of the sequencing guard in src/src/event/mod.rs lines 32-47). -/
def EventData.isIcp : EventData → Bool
  | EventData.icp _ => true
  | _ => false

/-- The sequencing precondition exactly as the spec words it (§4.1, §8
"Sequencing"), stated from the spec for comparison with the source's
guard. -/
def specSeqPrecond (e : Event) (s : IdentifierState) : Prop :=
  match e.event_data with
  | EventData.icp _ => s.pre = IdentifierPrefix.unset ∧ e.sn = 0
  | _ => e.pre = s.pre ∧ e.sn = s.sn + 1

instance (e : Event) (s : IdentifierState) : Decidable (specSeqPrecond e s) := by
  unfold specSeqPrecond
  cases e.event_data <;> exact inferInstance

/-! Concrete instantiations of the abstract collaborators, used by witness
and counterexample theorems: an injective model hash, an injective model
signer, a trivially accepting verifier, and a trivially accepting fold. -/

/-- A concrete injective model hash: tags the input with the derivation
code. -/
def hashC : Nat → Bytes → Bytes := fun c bs => c :: bs

/-- A concrete injective model signer: tags the message with the private
key. -/
def signC : Bytes → Bytes → Bytes := fun m k => k ++ m

/-- A verifier instantiation that accepts everything. -/
def vfOk : IdentifierState → SignedEventMessage → Except Error Unit :=
  fun _ _ => Except.ok ()

/-- A fold instantiation that accepts everything and keeps the state. -/
def vaOk : IdentifierState → SignedEventMessage → Except Error IdentifierState :=
  fun s _ => Except.ok s

/-- A concrete identifier prefix used by the example states. -/
def exPre : IdentifierPrefix := IdentifierPrefix.basic (deriveBasic [5])

/-- A concrete key configuration. -/
def exKeyConfig : KeyConfig := ⟨1, [deriveBasic [7]], ⟨0, [9]⟩⟩

/-- A concrete inception payload. -/
def exIcpData : InceptionEvent := ⟨exKeyConfig, ⟨0, []⟩, []⟩

/-- A concrete inception event at sn 0. -/
def exIcpEvent : Event := ⟨exPre, 0, EventData.icp exIcpData⟩

/-- An initialized example state (prefix assigned, sn 0). -/
def exSInit : IdentifierState := ⟨exPre, 0, exKeyConfig, ⟨0, []⟩, [1]⟩

/-- C1: for every prior state `s` (whose successor does not overflow `u64`)
and event `e`, `Event::apply_to` succeeds only when the sequencing
preconditions hold — inception requires `s` uninitialized (default prefix)
and `e.sn = 0`, any other kind requires `e.pre = s.pre` and
`e.sn = s.sn + 1` — and any violation yields a semantic error and no new
state. -/
theorem C1_apply_to_sequencing (h : Nat → Bytes → Bytes) (e : Event) (s : IdentifierState)
    (hb : s.sn + 1 < U64) :
    (∀ s', Event.apply_to h e s = Except.ok s' → specSeqPrecond e s) ∧
    (¬ specSeqPrecond e s →
      ∃ m : ErrMsg, Event.apply_to h e s = Except.error (Error.semanticError m)) := by
  have hmod : (s.sn + 1) % U64 = s.sn + 1 := Nat.mod_eq_of_lt hb
  unfold Event.apply_to Event.seqCheck specSeqPrecond
  cases e.event_data with
  | icp a =>
      by_cases hc : s.pre ≠ IdentifierPrefix.defaultVal ∨ e.sn ≠ 0
      · rw [if_pos hc]
        refine ⟨(fun s' hs' => by cases hs'), fun _ => ⟨ErrMsg.snIncorrect, rfl⟩⟩
      · rw [if_neg hc]
        push_neg at hc
        exact ⟨fun _ _ => hc, fun hn => absurd hc hn⟩
  | rot a =>
      by_cases hp : e.pre ≠ s.pre
      · rw [if_pos hp]
        exact ⟨(fun s' hs' => by cases hs'), fun _ => ⟨ErrMsg.prefixMismatch, rfl⟩⟩
      · rw [if_neg hp]
        push_neg at hp
        by_cases hsn : e.sn ≠ (s.sn + 1) % U64
        · rw [if_pos hsn]
          rw [hmod] at hsn
          refine ⟨(fun s' hs' => by cases hs'), fun _ => ⟨ErrMsg.snIncorrect, rfl⟩⟩
        · rw [if_neg hsn]
          push_neg at hsn
          rw [hmod] at hsn
          exact ⟨fun _ _ => ⟨hp, hsn⟩, fun hn => absurd ⟨hp, hsn⟩ hn⟩
  | ixn a =>
      by_cases hp : e.pre ≠ s.pre
      · rw [if_pos hp]
        exact ⟨(fun s' hs' => by cases hs'), fun _ => ⟨ErrMsg.prefixMismatch, rfl⟩⟩
      · rw [if_neg hp]
        push_neg at hp
        by_cases hsn : e.sn ≠ (s.sn + 1) % U64
        · rw [if_pos hsn]
          refine ⟨(fun s' hs' => by cases hs'), fun _ => ⟨ErrMsg.snIncorrect, rfl⟩⟩
        · rw [if_neg hsn]
          push_neg at hsn
          rw [hmod] at hsn
          exact ⟨fun _ _ => ⟨hp, hsn⟩, fun hn => absurd ⟨hp, hsn⟩ hn⟩
  | vrc a =>
      by_cases hp : e.pre ≠ s.pre
      · rw [if_pos hp]
        exact ⟨(fun s' hs' => by cases hs'), fun _ => ⟨ErrMsg.prefixMismatch, rfl⟩⟩
      · rw [if_neg hp]
        push_neg at hp
        by_cases hsn : e.sn ≠ (s.sn + 1) % U64
        · rw [if_pos hsn]
          refine ⟨(fun s' hs' => by cases hs'), fun _ => ⟨ErrMsg.snIncorrect, rfl⟩⟩
        · rw [if_neg hsn]
          push_neg at hsn
          rw [hmod] at hsn
          exact ⟨fun _ _ => ⟨hp, hsn⟩, fun hn => absurd ⟨hp, hsn⟩ hn⟩

/-- Witness for C1 at a concrete input: an inception event applied to the
default state. -/
theorem C1_witness :
    (∀ s', Event.apply_to hashC exIcpEvent IdentifierState.defaultVal = Except.ok s' →
        specSeqPrecond exIcpEvent IdentifierState.defaultVal) ∧
    (¬ specSeqPrecond exIcpEvent IdentifierState.defaultVal →
      ∃ m : ErrMsg, Event.apply_to hashC exIcpEvent IdentifierState.defaultVal
          = Except.error (Error.semanticError m)) :=
  C1_apply_to_sequencing hashC exIcpEvent IdentifierState.defaultVal (by decide)

/-- C10: the non-inception sequencing check computes `state.sn + 1` in
unsigned 64-bit arithmetic; below the maximum exactly the event with
`sn = state.sn + 1` passes it, at `sn = 2^64 - 1` the successor wraps to 0,
so no larger sequence number can ever be accepted and an event with
`sn = 0` satisfies the check, while any other is rejected with the
"SN is not correct" semantic error. -/
theorem C10_u64_wraparound (h : Nat → Bytes → Bytes) (e : Event) (s : IdentifierState)
    (hni : e.event_data.isIcp = false) (hpre : e.pre = s.pre) :
    (s.sn + 1 < U64 → (Event.seqCheck e s = none ↔ e.sn = s.sn + 1)) ∧
    (s.sn = U64 - 1 →
      (s.sn + 1) % U64 = 0 ∧
      (Event.seqCheck e s = none ↔ e.sn = 0) ∧
      (e.sn ≠ 0 →
        Event.apply_to h e s = Except.error (Error.semanticError ErrMsg.snIncorrect))) := by
  have hnp : ¬ e.pre ≠ s.pre := fun hc => hc hpre
  have hcheck : Event.seqCheck e s =
      (if e.sn ≠ (s.sn + 1) % U64 then some (Error.semanticError ErrMsg.snIncorrect)
       else none) := by
    unfold Event.seqCheck
    cases hd : e.event_data with
    | icp a => rw [hd] at hni; cases hni
    | rot a =>
        show (if e.pre ≠ s.pre then some (Error.semanticError ErrMsg.prefixMismatch)
              else if e.sn ≠ (s.sn + 1) % U64 then some (Error.semanticError ErrMsg.snIncorrect)
              else none) = _
        rw [if_neg hnp]
    | ixn a =>
        show (if e.pre ≠ s.pre then some (Error.semanticError ErrMsg.prefixMismatch)
              else if e.sn ≠ (s.sn + 1) % U64 then some (Error.semanticError ErrMsg.snIncorrect)
              else none) = _
        rw [if_neg hnp]
    | vrc a =>
        show (if e.pre ≠ s.pre then some (Error.semanticError ErrMsg.prefixMismatch)
              else if e.sn ≠ (s.sn + 1) % U64 then some (Error.semanticError ErrMsg.snIncorrect)
              else none) = _
        rw [if_neg hnp]
  constructor
  · intro hb
    have hmod : (s.sn + 1) % U64 = s.sn + 1 := Nat.mod_eq_of_lt hb
    rw [hcheck, hmod]
    by_cases hsn : e.sn ≠ s.sn + 1
    · rw [if_pos hsn]
      exact ⟨(fun hx => by cases hx), fun hx => absurd hx hsn⟩
    · rw [if_neg hsn]
      push_neg at hsn
      exact ⟨fun _ => hsn, fun _ => rfl⟩
  · intro hmax
    have hone : (1 : Nat) ≤ U64 := by decide
    have hwrap : (s.sn + 1) % U64 = 0 := by
      rw [hmax, Nat.sub_add_cancel hone, Nat.mod_self]
    refine ⟨hwrap, ?_, ?_⟩
    · rw [hcheck, hwrap]
      by_cases hsn : e.sn ≠ 0
      · rw [if_pos hsn]
        exact ⟨(fun hx => by cases hx), fun hx => absurd hx hsn⟩
      · rw [if_neg hsn]
        push_neg at hsn
        exact ⟨fun _ => hsn, fun _ => rfl⟩
    · intro hsn
      unfold Event.apply_to
      rw [hcheck, hwrap, if_pos hsn]

/-- A non-inception example event at sn 0 (an interaction). -/
def exIxn0 : Event := ⟨exPre, 0, EventData.ixn ⟨⟨0, [2]⟩, []⟩⟩

/-- An example state sitting at the largest `u64` sequence number. -/
def exSMax : IdentifierState := ⟨exPre, U64 - 1, exKeyConfig, ⟨0, []⟩, [1]⟩

/-- Witness for C10 at a concrete input: a state at `sn = 2^64 - 1` and an
interaction event with `sn = 0`. -/
theorem C10_witness :
    (exSMax.sn + 1 < U64 → (Event.seqCheck exIxn0 exSMax = none ↔ exIxn0.sn = exSMax.sn + 1)) ∧
    (exSMax.sn = U64 - 1 →
      (exSMax.sn + 1) % U64 = 0 ∧
      (Event.seqCheck exIxn0 exSMax = none ↔ exIxn0.sn = 0) ∧
      (exIxn0.sn ≠ 0 →
        Event.apply_to hashC exIxn0 exSMax
          = Except.error (Error.semanticError ErrMsg.snIncorrect))) :=
  C10_u64_wraparound hashC exIxn0 exSMax (by decide) rfl

/-- Whether the payload is the receipt variant (the discriminator of
`add_sig`'s outer match, src/src/bin.rs lines 108-150). -/
def EventData.isVrc : EventData → Bool
  | EventData.vrc _ => true
  | _ => false

/-- The sequencing guard on a non-inception event, unfolded. -/
theorem Event.seqCheck_nonIcp_eq (e : Event) (s : IdentifierState)
    (hni : e.event_data.isIcp = false) :
    Event.seqCheck e s =
      (if e.pre ≠ s.pre then some (Error.semanticError ErrMsg.prefixMismatch)
       else if e.sn ≠ (s.sn + 1) % U64 then some (Error.semanticError ErrMsg.snIncorrect)
       else none) := by
  unfold Event.seqCheck
  cases hd : e.event_data with
  | icp a => rw [hd] at hni; cases hni
  | rot a => rfl
  | ixn a => rfl
  | vrc a => rfl

/-- The sequencing guard on an inception event, unfolded. -/
theorem Event.seqCheck_icp_eq (e : Event) (s : IdentifierState)
    (hic : e.event_data.isIcp = true) :
    Event.seqCheck e s =
      (if s.pre ≠ IdentifierPrefix.defaultVal ∨ e.sn ≠ 0
       then some (Error.semanticError ErrMsg.snIncorrect)
       else none) := by
  unfold Event.seqCheck
  cases hd : e.event_data with
  | icp a => rfl
  | rot a => rw [hd] at hic; cases hic
  | ixn a => rw [hd] at hic; cases hic
  | vrc a => rw [hd] at hic; cases hic

/-- A failed sequencing guard propagates as the returned error. -/
theorem Event.apply_to_of_seqCheck_some (h : Nat → Bytes → Bytes) (e : Event)
    (s : IdentifierState) (err : Error) (hc : Event.seqCheck e s = some err) :
    Event.apply_to h e s = Except.error err := by
  unfold Event.apply_to
  rw [hc]

/-- `add_sig` on a non-receipt payload, unfolded. -/
theorem LogState.add_sig_nonVrc_eq (h : Nat → Bytes → Bytes)
    (vf : IdentifierState → SignedEventMessage → Except Error Unit)
    (self : LogState) (validator : IdentifierState) (sigs : SignedEventMessage)
    (hnv : sigs.event_message.event.event_data.isVrc = false) :
    LogState.add_sig h vf self validator sigs
      = (self, Except.error (Error.semanticError ErrMsg.notAReceipt)) := by
  unfold LogState.add_sig
  cases hd : sigs.event_message.event.event_data with
  | icp a => rfl
  | rot a => rfl
  | ixn a => rfl
  | vrc r => rw [hd] at hnv; cases hnv

/-- `add_sig` on a receipt payload, unfolded to its inner decision tree. -/
theorem LogState.add_sig_vrc_eq (h : Nat → Bytes → Bytes)
    (vf : IdentifierState → SignedEventMessage → Except Error Unit)
    (self : LogState) (validator : IdentifierState) (sigs : SignedEventMessage)
    (rct : ReceiptTransferable)
    (hv : sigs.event_message.event.event_data = EventData.vrc rct) :
    LogState.add_sig h vf self validator sigs =
      (match self.log.get? sigs.event_message.event.sn with
       | none => (self, Except.error (Error.semanticError ErrMsg.incorrectReceiptSn))
       | some event =>
          if sigs.event_message.event.pre = self.state.pre
              ∧ rct.receipted_event_digest
                  = deriveSA h rct.receipted_event_digest.derivation
                      (EventMessage.serialize event.event_message)
              ∧ rct.validator_location_seal.pre = validator.pre then
            if rct.validator_location_seal.event_digest
                = deriveSA h rct.validator_location_seal.event_digest.derivation
                    validator.last then
              match vf validator (EventMessage.sign event.event_message sigs.signatures) with
              | Except.ok _ =>
                  ({ self with
                      sigs_map := SigsMap.push self.sigs_map sigs.event_message.event.sn sigs },
                    Except.ok ())
              | Except.error e => (self, Except.error e)
            else
              ({ self with escrow_sigs := self.escrow_sigs ++ [sigs] }, Except.ok ())
          else
            (self, Except.error (Error.semanticError ErrMsg.incorrectReceiptBinding))) := by
  unfold LogState.add_sig
  rw [hv]

/-- The example identifier's own log entry at sn 0 (its inception message,
unsigned signatures list suffices for these scenarios). -/
def exEntry : SignedEventMessage :=
  ⟨⟨SerializationFormats.json, exIcpEvent⟩, []⟩

/-- The example validator state. -/
def exValidator : IdentifierState :=
  ⟨IdentifierPrefix.basic (deriveBasic [8]), 0, exKeyConfig, ⟨0, []⟩, [3]⟩

/-- The example local `LogState`: one log entry, empty receipt collection
and escrow. -/
def exLogSt : LogState :=
  ⟨[exEntry], [], exSInit, ⟨[10], [11]⟩, ⟨[12], [13]⟩, []⟩

/-- A receipt payload for `exEntry` satisfying all three bindings, with a
seal digest that matches a fresh digest of the validator's last event. -/
def exGoodPayload : ReceiptTransferable :=
  ⟨deriveSA hashC blake3_256 (EventMessage.serialize exEntry.event_message),
   ⟨exValidator.pre, deriveSA hashC blake3_256 exValidator.last⟩⟩

/-- A receipt for `exEntry` that satisfies all three bindings and whose
seal digest matches a fresh digest of the validator's last event. -/
def exGoodRct : SignedEventMessage :=
  ⟨⟨SerializationFormats.json, ⟨exPre, 0, EventData.vrc exGoodPayload⟩⟩,
   [⟨ed25519Sha512, [99], 0⟩]⟩

/-- The same receipt with the wrong top-level identifier prefix (binding 1
fails). -/
def exRctBadPre : SignedEventMessage :=
  ⟨⟨SerializationFormats.json, ⟨exValidator.pre, 0, EventData.vrc exGoodPayload⟩⟩,
   [⟨ed25519Sha512, [99], 0⟩]⟩

/-- A receipt whose `sn` (7) has no locally held log entry. -/
def exRctBadSn : SignedEventMessage :=
  ⟨⟨SerializationFormats.json, ⟨exPre, 7, EventData.vrc exGoodPayload⟩⟩,
   [⟨ed25519Sha512, [99], 0⟩]⟩

/-- A receipt payload whose seal carries the wrong validator prefix
(binding 3 fails). -/
def exBadSealPayload : ReceiptTransferable :=
  ⟨deriveSA hashC blake3_256 (EventMessage.serialize exEntry.event_message),
   ⟨exPre, deriveSA hashC blake3_256 exValidator.last⟩⟩

/-- The same receipt with the wrong seal validator prefix (binding 3
fails). -/
def exRctBadSeal : SignedEventMessage :=
  ⟨⟨SerializationFormats.json, ⟨exPre, 0, EventData.vrc exBadSealPayload⟩⟩,
   [⟨ed25519Sha512, [99], 0⟩]⟩

/-- A receipt payload whose three bindings hold but whose seal digest is
over stale bytes, so it does not match a fresh digest of the validator's
last event (the escrow case). -/
def exStaleSealPayload : ReceiptTransferable :=
  ⟨deriveSA hashC blake3_256 (EventMessage.serialize exEntry.event_message),
   ⟨exValidator.pre, deriveSA hashC blake3_256 [42]⟩⟩

/-- A receipt whose bindings hold but whose seal digest is stale. -/
def exRctStaleSeal : SignedEventMessage :=
  ⟨⟨SerializationFormats.json, ⟨exPre, 0, EventData.vrc exStaleSealPayload⟩⟩,
   [⟨ed25519Sha512, [99], 0⟩]⟩

/-- A signed message that is not a receipt. -/
def exNonRct : SignedEventMessage :=
  ⟨⟨SerializationFormats.json, exIxn0⟩, [⟨ed25519Sha512, [99], 0⟩]⟩

/-- An inception event applied to an already-initialized state whose `sn`
field is correct for inception (0): only the prefix precondition is
violated. -/
def exIcpAtInit : Event := exIcpEvent

/-- A non-inception event whose prefix matches but whose `sn` is wrong. -/
def exIxnBadSn : Event := ⟨exPre, 5, EventData.ixn ⟨⟨0, [2]⟩, []⟩⟩

/-- C7 counterexample: distinct invariants share one error.  An inception
event applied to an already-initialized state with `sn = 0` — a pure
prefix violation — reports the same `SemanticError("SN is not correct")`
as a pure sn violation on a non-inception event; and a receipt failing
the prefix binding reports the same
`SemanticError("incorrect receipt binding")` as one failing the
seal-validator-prefix binding. -/
theorem C7_counterexample :
    Event.apply_to hashC exIcpAtInit exSInit
        = Except.error (Error.semanticError ErrMsg.snIncorrect) ∧
    Event.apply_to hashC exIxnBadSn exSInit
        = Except.error (Error.semanticError ErrMsg.snIncorrect) ∧
    (LogState.add_sig hashC vfOk exLogSt exValidator exRctBadPre).2
        = Except.error (Error.semanticError ErrMsg.incorrectReceiptBinding) ∧
    (LogState.add_sig hashC vfOk exLogSt exValidator exRctBadSeal).2
        = Except.error (Error.semanticError ErrMsg.incorrectReceiptBinding) := by
  decide

/-- C7 amended: errors are specific only at the granularity the code
implements.  Non-inception prefix and sn violations are distinguished
("Prefix does not match" vs "SN is not correct"); any violation of the
inception preconditions — prefix or sn — reports "SN is not correct"; a
receipt whose sn has no log entry reports "incorrect receipt sn"; all
three receipt-binding failures share the single error
"incorrect receipt binding"; a non-receipt reports "not a receipt". -/
theorem C7_amended_error_granularity (h : Nat → Bytes → Bytes)
    (vf : IdentifierState → SignedEventMessage → Except Error Unit)
    (e : Event) (s : IdentifierState)
    (self : LogState) (validator : IdentifierState) (sigs : SignedEventMessage) :
    (e.event_data.isIcp = false → e.pre ≠ s.pre →
      Event.apply_to h e s = Except.error (Error.semanticError ErrMsg.prefixMismatch)) ∧
    (e.event_data.isIcp = false → e.pre = s.pre → e.sn ≠ (s.sn + 1) % U64 →
      Event.apply_to h e s = Except.error (Error.semanticError ErrMsg.snIncorrect)) ∧
    (e.event_data.isIcp = true → (s.pre ≠ IdentifierPrefix.defaultVal ∨ e.sn ≠ 0) →
      Event.apply_to h e s = Except.error (Error.semanticError ErrMsg.snIncorrect)) ∧
    (∀ rct : ReceiptTransferable,
      sigs.event_message.event.event_data = EventData.vrc rct →
      self.log.get? sigs.event_message.event.sn = none →
      LogState.add_sig h vf self validator sigs
        = (self, Except.error (Error.semanticError ErrMsg.incorrectReceiptSn))) ∧
    (∀ (rct : ReceiptTransferable) (entry : SignedEventMessage),
      sigs.event_message.event.event_data = EventData.vrc rct →
      self.log.get? sigs.event_message.event.sn = some entry →
      ¬ (sigs.event_message.event.pre = self.state.pre
          ∧ rct.receipted_event_digest
              = deriveSA h rct.receipted_event_digest.derivation
                  (EventMessage.serialize entry.event_message)
          ∧ rct.validator_location_seal.pre = validator.pre) →
      LogState.add_sig h vf self validator sigs
        = (self, Except.error (Error.semanticError ErrMsg.incorrectReceiptBinding))) ∧
    (sigs.event_message.event.event_data.isVrc = false →
      LogState.add_sig h vf self validator sigs
        = (self, Except.error (Error.semanticError ErrMsg.notAReceipt))) := by
  refine ⟨?_, ?_, ?_, ?_, ?_, ?_⟩
  · intro hni hp
    exact Event.apply_to_of_seqCheck_some h e s _
      (by rw [Event.seqCheck_nonIcp_eq e s hni, if_pos hp])
  · intro hni hp hsn
    refine Event.apply_to_of_seqCheck_some h e s _ ?_
    rw [Event.seqCheck_nonIcp_eq e s hni, if_neg (fun hc => hc hp), if_pos hsn]
  · intro hic hviol
    exact Event.apply_to_of_seqCheck_some h e s _
      (by rw [Event.seqCheck_icp_eq e s hic, if_pos hviol])
  · intro rct hv hnone
    rw [LogState.add_sig_vrc_eq h vf self validator sigs rct hv, hnone]
  · intro rct entry hv hsome hnb
    rw [LogState.add_sig_vrc_eq h vf self validator sigs rct hv, hsome]
    exact if_neg hnb
  · intro hnv
    exact LogState.add_sig_nonVrc_eq h vf self validator sigs hnv

/-- Witness for C7's amended theorem at concrete inputs, discharging every
hypothesis of each conjunct. -/
theorem C7_amended_witness :
    Event.apply_to hashC exIxnBadSn exValidator
        = Except.error (Error.semanticError ErrMsg.prefixMismatch) ∧
    Event.apply_to hashC exIxnBadSn exSInit
        = Except.error (Error.semanticError ErrMsg.snIncorrect) ∧
    Event.apply_to hashC exIcpAtInit exSInit
        = Except.error (Error.semanticError ErrMsg.snIncorrect) ∧
    LogState.add_sig hashC vfOk exLogSt exValidator exRctBadSn
        = (exLogSt, Except.error (Error.semanticError ErrMsg.incorrectReceiptSn)) ∧
    LogState.add_sig hashC vfOk exLogSt exValidator exRctBadPre
        = (exLogSt, Except.error (Error.semanticError ErrMsg.incorrectReceiptBinding)) ∧
    LogState.add_sig hashC vfOk exLogSt exValidator exNonRct
        = (exLogSt, Except.error (Error.semanticError ErrMsg.notAReceipt)) :=
  ⟨(C7_amended_error_granularity hashC vfOk exIxnBadSn exValidator exLogSt exValidator
      exGoodRct).1 (by decide) (by decide),
   (C7_amended_error_granularity hashC vfOk exIxnBadSn exSInit exLogSt exValidator
      exGoodRct).2.1 (by decide) (by decide) (by decide),
   (C7_amended_error_granularity hashC vfOk exIcpAtInit exSInit exLogSt exValidator
      exGoodRct).2.2.1 (by decide) (by decide),
   (C7_amended_error_granularity hashC vfOk exIcpAtInit exSInit exLogSt exValidator
      exRctBadSn).2.2.2.1 exGoodPayload rfl (by decide),
   (C7_amended_error_granularity hashC vfOk exIcpAtInit exSInit exLogSt exValidator
      exRctBadPre).2.2.2.2.1 exGoodPayload exEntry rfl (by decide) (by decide),
   (C7_amended_error_granularity hashC vfOk exIcpAtInit exSInit exLogSt exValidator
      exNonRct).2.2.2.2.2 (by decide)⟩

/-- C2: when the three bindings hold but the seal's event digest does not
match a fresh digest of the validator's currently known last event, the
receipt is appended to the escrow set and `add_sig` returns `Ok`, not a
rejection. -/
theorem C2_escrow_on_seal_digest_mismatch (h : Nat → Bytes → Bytes)
    (vf : IdentifierState → SignedEventMessage → Except Error Unit)
    (self : LogState) (validator : IdentifierState) (sigs : SignedEventMessage)
    (rct : ReceiptTransferable) (entry : SignedEventMessage)
    (hv : sigs.event_message.event.event_data = EventData.vrc rct)
    (hlog : self.log.get? sigs.event_message.event.sn = some entry)
    (hb1 : sigs.event_message.event.pre = self.state.pre)
    (hb2 : rct.receipted_event_digest
        = deriveSA h rct.receipted_event_digest.derivation
            (EventMessage.serialize entry.event_message))
    (hb3 : rct.validator_location_seal.pre = validator.pre)
    (hseal : rct.validator_location_seal.event_digest
        ≠ deriveSA h rct.validator_location_seal.event_digest.derivation validator.last) :
    LogState.add_sig h vf self validator sigs
      = ({ self with escrow_sigs := self.escrow_sigs ++ [sigs] }, Except.ok ()) := by
  rw [LogState.add_sig_vrc_eq h vf self validator sigs rct hv]
  simp only [hlog]
  rw [if_pos ⟨hb1, hb2, hb3⟩, if_neg hseal]

/-- Witness for C2 at a concrete input: a receipt whose bindings hold but
whose seal digest is stale is escrowed and the call succeeds. -/
theorem C2_witness :
    LogState.add_sig hashC vfOk exLogSt exValidator exRctStaleSeal
      = ({ exLogSt with escrow_sigs := exLogSt.escrow_sigs ++ [exRctStaleSeal] },
          Except.ok ()) :=
  C2_escrow_on_seal_digest_mismatch hashC vfOk exLogSt exValidator exRctStaleSeal
    exStaleSealPayload exEntry rfl (by decide) (by decide) (by decide) (by decide) (by decide)

/-- C3: a receipt whose sn has a locally held log entry but for which any
of the three bindings fails is rejected with the semantic error
"incorrect receipt binding", and the `LogState` — in particular the
receipt collection and the escrow set — is unchanged. -/
theorem C3_binding_failure_hard_rejects (h : Nat → Bytes → Bytes)
    (vf : IdentifierState → SignedEventMessage → Except Error Unit)
    (self : LogState) (validator : IdentifierState) (sigs : SignedEventMessage)
    (rct : ReceiptTransferable) (entry : SignedEventMessage)
    (hv : sigs.event_message.event.event_data = EventData.vrc rct)
    (hlog : self.log.get? sigs.event_message.event.sn = some entry)
    (hnb : ¬ (sigs.event_message.event.pre = self.state.pre
        ∧ rct.receipted_event_digest
            = deriveSA h rct.receipted_event_digest.derivation
                (EventMessage.serialize entry.event_message)
        ∧ rct.validator_location_seal.pre = validator.pre)) :
    LogState.add_sig h vf self validator sigs
      = (self, Except.error (Error.semanticError ErrMsg.incorrectReceiptBinding)) := by
  rw [LogState.add_sig_vrc_eq h vf self validator sigs rct hv]
  simp only [hlog]
  exact if_neg hnb

/-- Witness for C3 at a concrete input: a receipt whose seal names the
wrong validator prefix is rejected and the state is unchanged. -/
theorem C3_witness :
    LogState.add_sig hashC vfOk exLogSt exValidator exRctBadSeal
      = (exLogSt, Except.error (Error.semanticError ErrMsg.incorrectReceiptBinding)) :=
  C3_binding_failure_hard_rejects hashC vfOk exLogSt exValidator exRctBadSeal
    exBadSealPayload exEntry rfl (by decide) (by decide)

/-- The receipt message `make_rct` builds for a target event message
(src/src/bin.rs lines 155-166), before signing: prefix and sn of the
target, a fresh digest of the target's serialization, and a seal naming
the issuer and a fresh digest of the issuer's last event. -/
def rctEventMessage (h : Nat → Bytes → Bytes) (self : LogState) (event : EventMessage) :
    EventMessage :=
  ⟨SerializationFormats.json,
   ⟨event.event.pre, event.event.sn, EventData.vrc
     ⟨deriveSA h blake3_256 (EventMessage.serialize event),
      ⟨self.state.pre, deriveSA h blake3_256 self.state.last⟩⟩⟩⟩

/-- `make_rct` never fails and produces the receipt message signed with a
signature over `ser`, the serialization of the TARGET event (src/src/bin.rs
lines 154 and 170). -/
theorem LogState.make_rct_eq (h : Nat → Bytes → Bytes) (signFn : Bytes → Bytes → Bytes)
    (self : LogState) (event : EventMessage) :
    LogState.make_rct h signFn self event
      = Except.ok (EventMessage.sign (rctEventMessage h self event)
          [⟨ed25519Sha512, signFn (EventMessage.serialize event) self.keypair.privKey, 0⟩]) := by
  rfl

/-- C5 amended: `make_rct` signs the canonical serialization of the
receipted (target) event with the issuer's current signing key — so the
attached signature verifies against the target event's serialization
(which is what `add_sig` checks receipts against), not against the receipt
message's own serialization. -/
theorem C5_make_rct_signs_target_serialization (h : Nat → Bytes → Bytes)
    (signFn : Bytes → Bytes → Bytes) (self : LogState) (event : EventMessage)
    (rm : SignedEventMessage)
    (hok : LogState.make_rct h signFn self event = Except.ok rm) :
    rm.signatures
      = [⟨ed25519Sha512, signFn (EventMessage.serialize event) self.keypair.privKey, 0⟩] := by
  have h3 : Except.ok (EventMessage.sign (rctEventMessage h self event)
      [⟨ed25519Sha512, signFn (EventMessage.serialize event) self.keypair.privKey, 0⟩])
      = Except.ok rm := hok
  rw [← Except.ok.inj h3]
  rfl

/-- The example target event message a receipt is issued for. -/
def exTarget : EventMessage := exEntry.event_message

/-- The receipt message `make_rct` produces for `exTarget` under the
concrete model crypto. -/
def exRctMsg : SignedEventMessage :=
  EventMessage.sign (rctEventMessage hashC exLogSt exTarget)
    [⟨ed25519Sha512, signC (EventMessage.serialize exTarget) exLogSt.keypair.privKey, 0⟩]

/-- Witness for C5's amended theorem at a concrete input. -/
theorem C5_amended_witness :
    exRctMsg.signatures
      = [⟨ed25519Sha512, signC (EventMessage.serialize exTarget) exLogSt.keypair.privKey, 0⟩] :=
  C5_make_rct_signs_target_serialization hashC signC exLogSt exTarget exRctMsg (by decide)

/-- C5 counterexample: at a concrete input, with an injective model signer,
the signature `make_rct` attaches is computed over the serialization of the
target event, and that differs from a signature computed over the receipt
message's own serialization — so the attached signature does not verify
against the serialized receipt message it is attached to. -/
theorem C5_counterexample :
    LogState.make_rct hashC signC exLogSt exTarget = Except.ok exRctMsg ∧
    exRctMsg.signatures
      = [⟨ed25519Sha512, signC (EventMessage.serialize exTarget) exLogSt.keypair.privKey, 0⟩] ∧
    signC (EventMessage.serialize exTarget) exLogSt.keypair.privKey
      ≠ signC (EventMessage.serialize exRctMsg.event_message) exLogSt.keypair.privKey := by
  decide

/-- C8: the receipt message produced by `make_rct` carries the receipted
event's `sn` and prefix in its own `sn`/prefix fields, while the issuer's
prefix appears (only) inside the `validator_location_seal`. -/
theorem C8_receipt_addressing (h : Nat → Bytes → Bytes)
    (signFn : Bytes → Bytes → Bytes) (self : LogState) (event : EventMessage)
    (rm : SignedEventMessage)
    (hok : LogState.make_rct h signFn self event = Except.ok rm) :
    rm.event_message.event.sn = event.event.sn ∧
    rm.event_message.event.pre = event.event.pre ∧
    rm.event_message.event.event_data = EventData.vrc
      ⟨deriveSA h blake3_256 (EventMessage.serialize event),
       ⟨self.state.pre, deriveSA h blake3_256 self.state.last⟩⟩ := by
  have h3 : Except.ok (EventMessage.sign (rctEventMessage h self event)
      [⟨ed25519Sha512, signFn (EventMessage.serialize event) self.keypair.privKey, 0⟩])
      = Except.ok rm := hok
  rw [← Except.ok.inj h3]
  exact ⟨rfl, rfl, rfl⟩

/-- Witness for C8 at a concrete input. -/
theorem C8_witness :
    exRctMsg.event_message.event.sn = exTarget.event.sn ∧
    exRctMsg.event_message.event.pre = exTarget.event.pre ∧
    exRctMsg.event_message.event.event_data = EventData.vrc
      ⟨deriveSA hashC blake3_256 (EventMessage.serialize exTarget),
       ⟨exLogSt.state.pre, deriveSA hashC blake3_256 exLogSt.state.last⟩⟩ :=
  C8_receipt_addressing hashC signC exLogSt exTarget exRctMsg (by decide)

/-- The rotation event message `rotate` builds (src/src/bin.rs lines
183-202), before signing: the identifier's prefix, `sn = state.sn + 1` in
`u64` arithmetic, a fresh digest of the prior `last` as
`previous_event_hash`, the promoted (formerly next) public key as the sole
current key, and a fresh commitment digest over the canonical text
encoding of the newly generated next public key. -/
def rotEventMessage (h : Nat → Bytes → Bytes) (self : LogState) (fresh : KeyPair) :
    EventMessage :=
  ⟨SerializationFormats.json,
   ⟨self.state.pre, (self.state.sn + 1) % U64, EventData.rot
     ⟨deriveSA h blake3_256 self.state.last,
      ⟨1, [deriveBasic self.next_keypair.pubKey],
       deriveSA h blake3_256 (deriveBasic fresh.pubKey).to_str_bytes⟩,
      default, []⟩⟩⟩

/-- The signed rotation event `rotate` builds (src/src/bin.rs lines
204-210): the rotation message signed with the promoted private key. -/
def rotSigned (h : Nat → Bytes → Bytes) (signFn : Bytes → Bytes → Bytes)
    (self : LogState) (fresh : KeyPair) : SignedEventMessage :=
  EventMessage.sign (rotEventMessage h self fresh)
    [⟨ed25519Sha512,
      signFn (EventMessage.serialize (rotEventMessage h self fresh)) self.next_keypair.privKey,
      0⟩]

/-- `rotate` when the fold collaborator accepts: the new state is
installed, the signed rotation is appended to the log and the key pairs
are promoted. -/
theorem LogState.rotate_ok_eq (h : Nat → Bytes → Bytes) (signFn : Bytes → Bytes → Bytes)
    (va : IdentifierState → SignedEventMessage → Except Error IdentifierState)
    (fresh : KeyPair) (self : LogState) (st' : IdentifierState)
    (hva : va self.state (rotSigned h signFn self fresh) = Except.ok st') :
    LogState.rotate h signFn va fresh self =
      Except.ok ({ self with
                    state := st'
                    log := self.log ++ [rotSigned h signFn self fresh]
                    keypair := self.next_keypair
                    next_keypair := fresh },
                  rotSigned h signFn self fresh) := by
  unfold LogState.rotate
  show Except.bind (va self.state (rotSigned h signFn self fresh)) _ = _
  rw [hva]
  rfl

/-- `rotate` when the fold collaborator rejects: the error propagates. -/
theorem LogState.rotate_error_eq (h : Nat → Bytes → Bytes) (signFn : Bytes → Bytes → Bytes)
    (va : IdentifierState → SignedEventMessage → Except Error IdentifierState)
    (fresh : KeyPair) (self : LogState) (e : Error)
    (hva : va self.state (rotSigned h signFn self fresh) = Except.error e) :
    LogState.rotate h signFn va fresh self = Except.error e := by
  unfold LogState.rotate
  show Except.bind (va self.state (rotSigned h signFn self fresh)) _ = _
  rw [hva]
  rfl

/-- C4: when `rotate` succeeds, the previously committed next key pair
becomes the current signing key pair, the freshly generated pair becomes
the committed next pair, the rotation event's `sn` is the prior state's
`sn + 1`, its `previous_event_hash` is a digest of the prior state's last
event, its key configuration carries the promoted public key and a fresh
commitment digest over the new next public key's encoding, and the signed
rotation event is appended to the log. -/
theorem C4_rotate_promotes_next_key (h : Nat → Bytes → Bytes)
    (signFn : Bytes → Bytes → Bytes)
    (va : IdentifierState → SignedEventMessage → Except Error IdentifierState)
    (fresh : KeyPair) (self : LogState) (res : LogState × SignedEventMessage)
    (hb : self.state.sn + 1 < U64)
    (hok : LogState.rotate h signFn va fresh self = Except.ok res) :
    res.1.keypair = self.next_keypair ∧
    res.1.next_keypair = fresh ∧
    res.2.event_message.event.sn = self.state.sn + 1 ∧
    res.2.event_message.event.pre = self.state.pre ∧
    res.2.event_message.event.event_data = EventData.rot
      ⟨deriveSA h blake3_256 self.state.last,
       ⟨1, [deriveBasic self.next_keypair.pubKey],
        deriveSA h blake3_256 (deriveBasic fresh.pubKey).to_str_bytes⟩,
       default, []⟩ ∧
    res.2.signatures
      = [⟨ed25519Sha512,
          signFn (EventMessage.serialize (rotEventMessage h self fresh))
            self.next_keypair.privKey, 0⟩] ∧
    res.1.log = self.log ++ [res.2] := by
  cases hva : va self.state (rotSigned h signFn self fresh) with
  | ok st' =>
      rw [LogState.rotate_ok_eq h signFn va fresh self st' hva] at hok
      rw [← Except.ok.inj hok]
      refine ⟨rfl, rfl, Nat.mod_eq_of_lt hb, rfl, rfl, rfl, rfl⟩
  | error e =>
      rw [LogState.rotate_error_eq h signFn va fresh self e hva] at hok
      cases hok

/-- The fresh key pair the RNG yields in the example rotation. -/
def exFresh : KeyPair := ⟨[20], [21]⟩

/-- The result of the example rotation under the trivially accepting fold
`vaOk`. -/
def exRotRes : LogState × SignedEventMessage :=
  ({ exLogSt with
      state := exLogSt.state
      log := exLogSt.log ++ [rotSigned hashC signC exLogSt exFresh]
      keypair := exLogSt.next_keypair
      next_keypair := exFresh },
    rotSigned hashC signC exLogSt exFresh)

/-- Witness for C4 at a concrete input. -/
theorem C4_witness :
    exRotRes.1.keypair = exLogSt.next_keypair ∧
    exRotRes.1.next_keypair = exFresh ∧
    exRotRes.2.event_message.event.sn = exLogSt.state.sn + 1 ∧
    exRotRes.2.event_message.event.pre = exLogSt.state.pre ∧
    exRotRes.2.event_message.event.event_data = EventData.rot
      ⟨deriveSA hashC blake3_256 exLogSt.state.last,
       ⟨1, [deriveBasic exLogSt.next_keypair.pubKey],
        deriveSA hashC blake3_256 (deriveBasic exFresh.pubKey).to_str_bytes⟩,
       default, []⟩ ∧
    exRotRes.2.signatures
      = [⟨ed25519Sha512,
          signC (EventMessage.serialize (rotEventMessage hashC exLogSt exFresh))
            exLogSt.next_keypair.privKey, 0⟩] ∧
    exRotRes.1.log = exLogSt.log ++ [exRotRes.2] :=
  C4_rotate_promotes_next_key hashC signC vaOk exFresh exLogSt exRotRes
    (by decide) (by decide)

/-- The example local state after `exGoodRct` has been escrowed (as
`add_sig` leaves it when the seal digest could not yet be checked). -/
def exEscrowSt : LogState := { exLogSt with escrow_sigs := [exGoodRct] }

/-- C6 counterexample: an escrowed receipt is NOT removed from escrow when
it becomes resolvable.  `exGoodRct` sits in the escrow set; its seal digest
now matches a fresh digest of the validator's known last event, and
submitting it to `add_sig` accepts it into the per-sn receipt collection —
yet the escrow set still contains it afterwards, and no other `LogState`
operation ever removes escrow entries. -/
theorem C6_counterexample :
    (LogState.add_sig hashC vfOk exEscrowSt exValidator exGoodRct).2 = Except.ok () ∧
    SigsMap.find (LogState.add_sig hashC vfOk exEscrowSt exValidator exGoodRct).1.sigs_map 0
      = [exGoodRct] ∧
    (LogState.add_sig hashC vfOk exEscrowSt exValidator exGoodRct).1.escrow_sigs
      = [exGoodRct] := by
  decide

/-- C6 amended: escrow entries are never removed.  `add_sig` either leaves
the escrow set unchanged or appends the incoming receipt to it, and a
successful `rotate` leaves it unchanged; no `LogState` operation removes
escrow entries, so a receipt that became resolvable is accepted into the
per-sn collection on (each) re-submission while its escrow entry
persists. -/
theorem C6_amended_escrow_append_only (h : Nat → Bytes → Bytes)
    (vf : IdentifierState → SignedEventMessage → Except Error Unit)
    (signFn : Bytes → Bytes → Bytes)
    (va : IdentifierState → SignedEventMessage → Except Error IdentifierState)
    (fresh : KeyPair) (self : LogState) (validator : IdentifierState)
    (sigs : SignedEventMessage) :
    ((LogState.add_sig h vf self validator sigs).1.escrow_sigs = self.escrow_sigs ∨
     (LogState.add_sig h vf self validator sigs).1.escrow_sigs
        = self.escrow_sigs ++ [sigs]) ∧
    (∀ res : LogState × SignedEventMessage,
      LogState.rotate h signFn va fresh self = Except.ok res →
      res.1.escrow_sigs = self.escrow_sigs) := by
  constructor
  · unfold LogState.add_sig
    split
    · split
      · exact Or.inl rfl
      · split
        · split
          · split
            · exact Or.inl rfl
            · exact Or.inl rfl
          · exact Or.inr rfl
        · exact Or.inl rfl
    · exact Or.inl rfl
  · intro res hok
    cases hva : va self.state (rotSigned h signFn self fresh) with
    | ok st' =>
        rw [LogState.rotate_ok_eq h signFn va fresh self st' hva] at hok
        rw [← Except.ok.inj hok]
    | error e =>
        rw [LogState.rotate_error_eq h signFn va fresh self e hva] at hok
        cases hok

/-- Witness for C6's amended theorem at a concrete input. -/
theorem C6_amended_witness :
    ((LogState.add_sig hashC vfOk exEscrowSt exValidator exGoodRct).1.escrow_sigs
        = exEscrowSt.escrow_sigs ∨
     (LogState.add_sig hashC vfOk exEscrowSt exValidator exGoodRct).1.escrow_sigs
        = exEscrowSt.escrow_sigs ++ [exGoodRct]) ∧
    (∀ res : LogState × SignedEventMessage,
      LogState.rotate hashC signC vaOk exFresh exEscrowSt = Except.ok res →
      res.1.escrow_sigs = exEscrowSt.escrow_sigs) :=
  C6_amended_escrow_append_only hashC vfOk signC vaOk exFresh exEscrowSt exValidator exGoodRct

/-- C9: `LMDBTable::set` has overwrite semantics — after
`set(key, value)`, `get(key)` observes `value` regardless of what the
store held under `key` before, and no earlier binding of `key` survives
in the store. -/
theorem C9_set_overwrites (st : Store) (k v : Bytes) :
    storeGet (LMDBTable.set st k v) k = some v ∧
    ∀ p ∈ LMDBTable.set st k v, p.1 = k → p.2 = v := by
  constructor
  · unfold LMDBTable.set storePut storeGet
    simp
  · intro p hp hpk
    unfold LMDBTable.set storePut at hp
    rcases List.mem_cons.mp hp with hc | hm
    · rw [hc]
    · exfalso
      unfold storeDelete at hm
      have hdec := List.of_mem_filter hm
      simp only [decide_eq_true_eq] at hdec
      exact hdec hpk

/-- Witness for C9 at a concrete input: overwriting key `[1]`. -/
theorem C9_witness :
    storeGet (LMDBTable.set [([1], [2])] [1] [3]) [1] = some [3] ∧
    ∀ p ∈ LMDBTable.set [([1], [2])] [1] [3], p.1 = [1] → p.2 = [3] :=
  C9_set_overwrites [([1], [2])] [1] [3]

end Keriox
